import Mathlib

/-!
Shallow embedding of the FOEDUS storage core, concentrating on
`src/foedus-core/src/foedus/storage/masstree/masstree_storage_pimpl.cpp` and
`src/foedus-core/src/foedus/storage/array/array_storage_pimpl.cpp`.
Page bodies, version words, transaction ids and the optimistic read protocol
come from headers that are not part of the source tree; those pieces are
modelled from the design document (spec.md) and marked as such below.
-/

namespace Foedus

/-- Error codes used by the embedded functions; the repository's
error_code.hpp is not in the source tree, but each constructor mirrors a
kErrorCode constant the embedded .cpp files return. -/
inductive ErrorCode where
  | ok
  | strMasstreeRetry
  | strKeyNotFound
  | strTooSmallPayloadBuffer
  | strTooShortPayload
  | strTooLongPayload
  | memoryNoFreePages
  | strAlreadyExists
  | notimplemented
deriving DecidableEq, Repr

/-- Modelled from the spec: the 64-bit page version word of
masstree_page_impl.hpp (absent from the source tree).  Section 4.2 of the
spec lists: lock bit (bit 0), inserting bit, splitting bit,
has-foster-child bit, is-root bit, is-border bit, is-high-fence-supremum
bit, key count (7 bits), insert counter (8 bits), split counter (32 bits). -/
structure PageVersion where
  locked : Bool := false
  inserting : Bool := false
  splitting : Bool := false
  hasFosterChild : Bool := false
  isRoot : Bool := false
  isBorder : Bool := false
  isHighFenceSupremum : Bool := false
  keyCount : Nat := 0
  insertCounter : Nat := 0
  splitCounter : Nat := 0
deriving DecidableEq, Repr

/-- The packed 64-bit word (`data_` in the source) of a version, with the
bit layout of the spec's section 4.2: flags in bits 0..6, key count in
bits 7..13, insert counter in bits 14..21, split counter in bits 22..53. -/
def PageVersion.data (v : PageVersion) : Nat :=
  v.locked.toNat + 2 * v.inserting.toNat + 4 * v.splitting.toNat +
  8 * v.hasFosterChild.toNat + 16 * v.isRoot.toNat + 32 * v.isBorder.toNat +
  64 * v.isHighFenceSupremum.toNat + 128 * (v.keyCount % 128) +
  16384 * (v.insertCounter % 256) + 4194304 * (v.splitCounter % 4294967296)

/-- The lone lock bit of the version word (bit 0 per the spec layout). -/
def kPageVersionLockedBit : Nat := 1

/-- The 32-bit split counter field read by get_split_counter. -/
def PageVersion.get_split_counter (v : PageVersion) : Nat :=
  v.splitCounter % 4294967296

/-- Modelled from the spec: unlock clears the lock and intent flags and
increments the counter matching the declared intent (section 4.2). -/
def PageVersion.unlock_version (v : PageVersion) : PageVersion :=
  { v with
    locked := false
    inserting := false
    splitting := false
    insertCounter := v.insertCounter + (if v.inserting then 1 else 0)
    splitCounter := v.splitCounter + (if v.splitting then 1 else 0) }

/-- Modelled from the spec: the record owner-id word (XctId of xct_id.hpp,
absent from the source tree): epoch, in-epoch ordinal, thread id, lock bit,
deleted bit, moved bit (spec section 3, "Record owner-id"). -/
structure XctId where
  epoch : Nat := 0
  ordinal : Nat := 0
  thread_id : Nat := 0
  locked : Bool := false
  deleted : Bool := false
  moved : Bool := false
deriving DecidableEq, Repr

def XctId.release_keylock (x : XctId) : XctId := { x with locked := false }

def XctId.keylock_unconditional (x : XctId) : XctId := { x with locked := true }

def XctId.set_deleted (x : XctId) : XctId := { x with deleted := true }

def XctId.set_notdeleted (x : XctId) : XctId := { x with deleted := false }

/-- Modelled from the spec: XctId::set_clean builds a fresh unlocked,
not-deleted, not-moved id from epoch, ordinal and thread. -/
def XctId.set_clean (epoch ordinal thread_id : Nat) : XctId :=
  { epoch := epoch, ordinal := ordinal, thread_id := thread_id,
    locked := false, deleted := false, moved := false }

/-- Modelled from the spec: Epoch::kEpochInitialCurrent (epoch_.hpp absent
from the source tree); only its existence matters here. -/
def kEpochInitialCurrent : Nat := 1

/-! ### Array storage: page-count and level computation (claim C6)

From `array_storage_pimpl.cpp` lines 85-120.  The helpers align8 and
int_div_ceil and the constants kDataSize, kRecordOverhead, kInteriorFanout
live in headers absent from the source tree; the helpers are modelled from
the spec and the constants are taken as parameters. -/

/-- Modelled from the spec: assorted::align8 rounds up to a multiple of 8. -/
def align8 (x : Nat) : Nat := (x + 7) / 8 * 8

/-- Modelled from the spec: assorted::int_div_ceil, division rounding up. -/
def int_div_ceil (dividee dividor : Nat) : Nat := (dividee + dividor - 1) / dividor

/-- The while loop of ArrayStoragePimpl::calculate_required_pages
(lines 96-103): starting from the leaf page count, repeatedly push
ceil(back / kInteriorFanout) until the last entry is 1.  Fuel-based; the
callers pass fuel at least the starting page count, which suffices. -/
def required_pages_loop (kInteriorFanout : Nat) : Nat → Nat → List Nat
  | 0, p => [p]
  | fuel + 1, p =>
    if p = 1 then [p]
    else p :: required_pages_loop kInteriorFanout fuel (int_div_ceil p kInteriorFanout)

/-- ArrayStoragePimpl::calculate_required_pages (lines 85-107): index of the
returned vector is the level. -/
def calculate_required_pages (kDataSize kRecordOverhead kInteriorFanout : Nat)
    (array_size : Nat) (payload : Nat) : List Nat :=
  let payload8 := align8 payload
  let records_per_page := kDataSize / (payload8 + kRecordOverhead)
  let leaf_pages := int_div_ceil array_size records_per_page
  required_pages_loop kInteriorFanout leaf_pages leaf_pages

/-- Metadata of an array storage
(include/foedus/storage/array/array_metadata.hpp). -/
structure ArrayMetadata where
  id_ : Nat := 0
  payload_size_ : Nat := 0
  array_size_ : Nat := 0
  root_page_id_ : Nat := 0
deriving DecidableEq, Repr

/-- The for loop of calculate_levels (lines 113-118), counting one plus the
number of divisions needed to reach a single page.  Fuel-based with the
same fuel policy as required_pages_loop. -/
def levels_loop (kInteriorFanout : Nat) : Nat → Nat → Nat
  | 0, _ => 1
  | fuel + 1, p =>
    if p = 1 then 1
    else 1 + levels_loop kInteriorFanout fuel (int_div_ceil p kInteriorFanout)

/-- calculate_levels (array_storage_pimpl.cpp lines 109-120). -/
def calculate_levels (kDataSize kRecordOverhead kInteriorFanout : Nat)
    (metadata : ArrayMetadata) : Nat :=
  let array_size := metadata.array_size_
  let payload := align8 metadata.payload_size_
  let records_per_page := kDataSize / (payload + kRecordOverhead)
  levels_loop kInteriorFanout (int_div_ceil array_size records_per_page)
    (int_div_ceil array_size records_per_page)

lemma levels_loop_eq_length (f : Nat) :
    ∀ fuel p, levels_loop f fuel p = (required_pages_loop f fuel p).length := by
  intro fuel
  induction fuel with
  | zero => intro p; simp [levels_loop, required_pages_loop]
  | succ n ih =>
    intro p
    by_cases hp : p = 1
    · simp [levels_loop, required_pages_loop, hp]
    · simp [levels_loop, required_pages_loop, hp, ih]; omega

lemma required_pages_loop_ne_nil (f : Nat) :
    ∀ fuel p, required_pages_loop f fuel p ≠ [] := by
  intro fuel p
  cases fuel with
  | zero => simp [required_pages_loop]
  | succ n =>
    by_cases hp : p = 1 <;> simp [required_pages_loop, hp]

lemma int_div_ceil_pos (p f : Nat) (hp : 1 ≤ p) (hf : 1 ≤ f) :
    1 ≤ int_div_ceil p f := by
  unfold int_div_ceil
  rw [Nat.le_div_iff_mul_le (by omega : 0 < f)]
  omega

lemma int_div_ceil_lt (p f : Nat) (hp : 2 ≤ p) (hf : 2 ≤ f) :
    int_div_ceil p f < p := by
  unfold int_div_ceil
  rw [Nat.div_lt_iff_lt_mul (by omega)]
  obtain ⟨p', rfl⟩ : ∃ p', p = p' + 2 := ⟨p - 2, by omega⟩
  obtain ⟨f', rfl⟩ : ∃ f', f = f' + 2 := ⟨f - 2, by omega⟩
  have h1 : p' + 2 + (f' + 2) - 1 = p' + f' + 3 := by omega
  rw [h1]
  nlinarith [Nat.zero_le (p' * f')]

lemma required_pages_loop_getLast (f : Nat) (hf : 2 ≤ f) :
    ∀ fuel p, 1 ≤ p → p ≤ fuel + 1 →
      (required_pages_loop f fuel p).getLast? = some 1 := by
  intro fuel
  induction fuel with
  | zero =>
    intro p h1 h2
    have : p = 1 := by omega
    simp [required_pages_loop, this]
  | succ n ih =>
    intro p h1 h2
    by_cases hp : p = 1
    · simp [required_pages_loop, hp]
    · have hp2 : 2 ≤ p := by omega
      have hlt := int_div_ceil_lt p f hp2 hf
      have hpos := int_div_ceil_pos p f (by omega) (by omega)
      have hrest := ih (int_div_ceil p f) hpos (by omega)
      have hne := required_pages_loop_ne_nil f n (int_div_ceil p f)
      simp only [required_pages_loop, hp, if_false]
      rw [List.getLast?_cons]
      simp only [hrest]
      cases hcase : required_pages_loop f n (int_div_ceil p f) with
      | nil => exact absurd hcase hne
      | cons a l => simp [hcase] at hrest ⊢

/-- C6: for every array_size ≥ 1 and payload_size, the level count computed
by calculate_levels equals the number of per-level entries in the vector
returned by calculate_required_pages for the same metadata, and the loop
indeed stops at a single page (last entry 1).  The page-size constants are
parameters because their headers are not in the source tree; the agreement
holds for any interior fanout at least 2 and any record size that fits a
page. -/
theorem C6_levels_match_required_pages
    (kDataSize kRecordOverhead kInteriorFanout : Nat) (md : ArrayMetadata)
    (h_size : 1 ≤ md.array_size_)
    (h_fanout : 2 ≤ kInteriorFanout)
    (h_records : 1 ≤ kDataSize / (align8 md.payload_size_ + kRecordOverhead)) :
    calculate_levels kDataSize kRecordOverhead kInteriorFanout md =
      (calculate_required_pages kDataSize kRecordOverhead kInteriorFanout
        md.array_size_ md.payload_size_).length
    ∧ (calculate_required_pages kDataSize kRecordOverhead kInteriorFanout
        md.array_size_ md.payload_size_).getLast? = some 1 := by
  constructor
  · unfold calculate_levels calculate_required_pages
    exact levels_loop_eq_length kInteriorFanout _ _
  · unfold calculate_required_pages
    apply required_pages_loop_getLast kInteriorFanout h_fanout
    · exact int_div_ceil_pos _ _ h_size h_records
    · omega

/-- Witness for C6 at a concrete configuration. -/
theorem C6_levels_match_required_pages_witness :
    (1 ≤ (⟨1, 8, 300, 0⟩ : ArrayMetadata).array_size_ + 299
     ∧ 2 ≤ 16
     ∧ 1 ≤ 4096 / (align8 (⟨1, 8, 300, 0⟩ : ArrayMetadata).payload_size_ + 16))
    ∧ (calculate_levels 4096 16 16 ⟨1, 8, 300, 0⟩ =
        (calculate_required_pages 4096 16 16 300 8).length
       ∧ (calculate_required_pages 4096 16 16 300 8).getLast? = some 1) :=
  ⟨by decide,
   C6_levels_match_required_pages 4096 16 16 ⟨1, 8, 300, 0⟩
     (by decide) (by decide) (by decide)⟩

/-! ### Masstree descent: hand-over-hand verification (claim C1)

From masstree_storage_pimpl.cpp: find_border (lines 236-277),
find_border_descend (279-388) and find_border_leaf (390-429).  A single
descent runs against a concurrent environment; each value the code loads
from shared memory is drawn from an observation record, so the embedded
step functions take the loaded versions as inputs. -/

/-- Values loaded during one foster-chase step: the foster child's stable
version, the re-read of the current page's version word, and the fresh
stable version taken on the failure path (lines 295-313 and 406-425). -/
structure DescendObsFoster where
  next_stable : PageVersion
  cur_reread : PageVersion
  cur_new_stable : PageVersion
deriving DecidableEq, Repr

/-- Values loaded during one intermediate-to-child step: the chosen
minipage's stable version, the child's stable version, the re-reads of the
page and minipage version words, and the fresh stable version taken on the
failure path (lines 319-385). -/
structure DescendObsChild where
  mini_stable : PageVersion
  next_stable : PageVersion
  cur_reread : PageVersion
  mini_reread : PageVersion
  cur_new_stable : PageVersion
deriving DecidableEq, Repr

/-- Outcome of one verification step of the descent. -/
inductive StepOutcome where
  | descend (next_stable : PageVersion)
  | retry_root
  | retry_local (new_stable : PageVersion)
deriving DecidableEq, Repr

/-- The hand-over-hand check when following a foster child, exactly as in
find_border_descend lines 295-315 and find_border_leaf lines 406-427:
XOR the re-read version word against the captured stable one; at most the
lock bit means descend; otherwise compare split counters and either give
up to the layer root (kErrorCodeStrMasstreeRetry) or retry this step with
the refreshed stable version. -/
def foster_chase_step (cur_stable : PageVersion) (o : DescendObsFoster) : StepOutcome :=
  let diff := Nat.xor o.cur_reread.data cur_stable.data
  if diff ≤ kPageVersionLockedBit then StepOutcome.descend o.next_stable
  else if o.cur_new_stable.get_split_counter ≠ cur_stable.get_split_counter then
    StepOutcome.retry_root
  else StepOutcome.retry_local o.cur_new_stable

/-- The hand-over-hand check when descending from an intermediate page to a
chosen child, exactly as in find_border_descend lines 349-386: both the
page version XOR and the minipage version XOR must be at most the lock bit
before descending. -/
def child_descend_step (cur_stable : PageVersion) (o : DescendObsChild) : StepOutcome :=
  let diff := Nat.xor o.cur_reread.data cur_stable.data
  let diff_mini := Nat.xor o.mini_reread.data o.mini_stable.data
  if diff ≤ kPageVersionLockedBit ∧ diff_mini ≤ kPageVersionLockedBit then
    StepOutcome.descend o.next_stable
  else if o.cur_new_stable.get_split_counter ≠ cur_stable.get_split_counter then
    StepOutcome.retry_root
  else StepOutcome.retry_local o.cur_new_stable

/-- Per-iteration observations of find_border_leaf: whether the slice falls
in the current page's foster range, plus the loaded versions. -/
structure LeafStepObs where
  within_foster : Bool
  next_stable : PageVersion
  cur_reread : PageVersion
  cur_new_stable : PageVersion
deriving Repr

/-- Result of one find_border subroutine call. -/
inductive LeafResult where
  | found (out_version : PageVersion)
  | retry_from_root
deriving DecidableEq, Repr

/-- find_border_leaf (lines 390-429): chase the foster chain until the slice
is outside the foster range, using foster_chase_step for each hop.  Fuel
models the unbounded while loop. -/
def find_border_leaf_loop (obs : Nat → LeafStepObs) :
    Nat → Nat → PageVersion → Option LeafResult
  | 0, _, _ => none
  | fuel + 1, i, cur_stable =>
    let o := obs i
    if ¬ (cur_stable.hasFosterChild && o.within_foster) then
      some (LeafResult.found cur_stable)
    else
      match foster_chase_step cur_stable
        ⟨o.next_stable, o.cur_reread, o.cur_new_stable⟩ with
      | StepOutcome.descend ns => find_border_leaf_loop obs fuel (i + 1) ns
      | StepOutcome.retry_root => some LeafResult.retry_from_root
      | StepOutcome.retry_local ns => find_border_leaf_loop obs fuel (i + 1) ns

/-- The outer while loop of find_border (lines 248-276): it re-runs the
whole descent from the layer root whenever a subroutine returns
kErrorCodeStrMasstreeRetry (retry_from_root here). -/
def find_border_loop (results : Nat → LeafResult) : Nat → Nat → Option PageVersion
  | 0, _ => none
  | fuel + 1, i =>
    match results i with
    | LeafResult.found v => some v
    | LeafResult.retry_from_root => find_border_loop results fuel (i + 1)

/-- Concrete captured stable version for the C1 counterexample. -/
def c1CurStable : PageVersion := {}

/-- Concrete observation for the C1 counterexample: the page version word
is unchanged on re-read, but the minipage version word changed its key
count (a concurrent pointer insertion into the minipage). -/
def c1Obs : DescendObsChild :=
  { mini_stable := {}
    next_stable := {}
    cur_reread := {}
    mini_reread := { keyCount := 1 }
    cur_new_stable := {} }

/-- C1 counterexample: at the intermediate-to-child step the claim says
that a parent-version XOR of at most the lock bit suffices to descend, but
find_border_descend (line 355) also requires the minipage version XOR to be
at most the lock bit; with an unchanged page word and a changed minipage
word the code retries instead of descending. -/
theorem C1_claim_counterexample :
    Nat.xor c1Obs.cur_reread.data c1CurStable.data ≤ kPageVersionLockedBit
    ∧ child_descend_step c1CurStable c1Obs ≠ StepOutcome.descend c1Obs.next_stable
    ∧ child_descend_step c1CurStable c1Obs = StepOutcome.retry_local c1Obs.cur_new_stable := by
  decide

/-- C1 amended: for foster-child steps the descent proceeds exactly when
the XOR of the re-read parent version with the captured stable version is
at most the lock bit; for intermediate-to-child steps it proceeds exactly
when additionally the XOR of the re-read minipage version with its captured
stable version is at most the lock bit; in all failing cases a changed
split counter restarts from the layer root (the retry code is consumed by
find_border's outer loop, which re-runs the descent), and an unchanged
split counter retries only the current step with the refreshed stable
version. -/
theorem C1_hand_over_hand_amended :
    (∀ (cs : PageVersion) (o : DescendObsFoster),
      (Nat.xor o.cur_reread.data cs.data ≤ kPageVersionLockedBit →
        foster_chase_step cs o = StepOutcome.descend o.next_stable)
      ∧ (¬ Nat.xor o.cur_reread.data cs.data ≤ kPageVersionLockedBit →
          (o.cur_new_stable.get_split_counter ≠ cs.get_split_counter →
            foster_chase_step cs o = StepOutcome.retry_root)
          ∧ (o.cur_new_stable.get_split_counter = cs.get_split_counter →
            foster_chase_step cs o = StepOutcome.retry_local o.cur_new_stable)))
    ∧ (∀ (cs : PageVersion) (o : DescendObsChild),
      (Nat.xor o.cur_reread.data cs.data ≤ kPageVersionLockedBit
          ∧ Nat.xor o.mini_reread.data o.mini_stable.data ≤ kPageVersionLockedBit →
        child_descend_step cs o = StepOutcome.descend o.next_stable)
      ∧ (¬ (Nat.xor o.cur_reread.data cs.data ≤ kPageVersionLockedBit
          ∧ Nat.xor o.mini_reread.data o.mini_stable.data ≤ kPageVersionLockedBit) →
          (o.cur_new_stable.get_split_counter ≠ cs.get_split_counter →
            child_descend_step cs o = StepOutcome.retry_root)
          ∧ (o.cur_new_stable.get_split_counter = cs.get_split_counter →
            child_descend_step cs o = StepOutcome.retry_local o.cur_new_stable)))
    ∧ (∀ (obs : Nat → LeafStepObs) (fuel i : Nat) (cs : PageVersion),
        (cs.hasFosterChild && (obs i).within_foster) = true →
        foster_chase_step cs
          ⟨(obs i).next_stable, (obs i).cur_reread, (obs i).cur_new_stable⟩ =
            StepOutcome.retry_root →
        find_border_leaf_loop obs (fuel + 1) i cs = some LeafResult.retry_from_root)
    ∧ (∀ (results : Nat → LeafResult) (fuel i : Nat),
        results i = LeafResult.retry_from_root →
        find_border_loop results (fuel + 1) i = find_border_loop results fuel (i + 1)) := by
  refine ⟨?_, ?_, ?_, ?_⟩
  · intro cs o
    constructor
    · intro h; simp [foster_chase_step, h]
    · intro h
      constructor
      · intro hsp; simp [foster_chase_step, h, hsp]
      · intro hsp; simp [foster_chase_step, h, hsp]
  · intro cs o
    constructor
    · intro h; simp [child_descend_step, h]
    · intro h
      constructor
      · intro hsp; simp [child_descend_step, h, hsp]
      · intro hsp; simp [child_descend_step, h, hsp]
  · intro obs fuel i cs hin hstep
    simp [find_border_leaf_loop, hin, hstep]
  · intro results fuel i h
    simp [find_border_loop, h]

/-- A concrete quiet foster-step observation for the C1 witness. -/
def c1FosterObs : DescendObsFoster := ⟨{}, {}, {}⟩

/-- Witness for C1's amended theorem at concrete inputs. -/
theorem C1_hand_over_hand_amended_witness :
    (Nat.xor c1FosterObs.cur_reread.data ({} : PageVersion).data ≤
        kPageVersionLockedBit
     ∧ foster_chase_step {} c1FosterObs = StepOutcome.descend c1FosterObs.next_stable)
    ∧ ((fun _ => LeafResult.retry_from_root) 0 = LeafResult.retry_from_root
       ∧ find_border_loop (fun _ => LeafResult.retry_from_root) 1 0 =
           find_border_loop (fun _ => LeafResult.retry_from_root) 0 1) :=
  ⟨⟨by decide, (C1_hand_over_hand_amended.1 {} c1FosterObs).1 (by decide)⟩,
   ⟨rfl, C1_hand_over_hand_amended.2.2.2 (fun _ => LeafResult.retry_from_root) 0 0 rfl⟩⟩

/-! ### Masstree root growth (claim C2)

From MasstreeStoragePimpl::grow_root, masstree_storage_pimpl.cpp lines
114-195.  Page pointers and page initialization come from headers absent
from the source tree and are modelled from the spec where noted. -/

/-- A volatile page pointer (storage_id.hpp absent from the source tree):
node, flags, mod count and pool offset, as used by
combine_volatile_page_pointer in the embedded code. -/
structure VolatilePagePointer where
  numa_node : Nat := 0
  flags : Nat := 0
  mod_count : Nat := 0
  offset : Nat := 0
deriving DecidableEq, Repr

def combine_volatile_page_pointer (numa_node flags mod_count offset : Nat) :
    VolatilePagePointer :=
  ⟨numa_node, flags, mod_count, offset⟩

/-- Modelled from the spec: the swappable-root pointer flag
(kVolatilePointerFlagSwappable); its numeric value is immaterial here. -/
def kVolatilePointerFlagSwappable : Nat := 2

/-- A dual page pointer: snapshot page id plus volatile pointer. -/
structure DualPagePointer where
  snapshot_pointer_ : Nat := 0
  volatile_pointer_ : VolatilePagePointer := {}
deriving DecidableEq, Repr

/-- Modelled from the spec: the infimum key slice. -/
def kInfimumSlice : Nat := 0

/-- Modelled from the spec: the supremum key slice (all-ones 64-bit). -/
def kSupremumSlice : Nat := 18446744073709551615

/-- The state of a masstree page as seen by grow_root: version word, layer,
own page id, fences and foster data (page body layout of
masstree_page_impl.hpp, absent from the source tree, modelled from the
spec's section 3). -/
structure MasstreePage where
  version : PageVersion := {}
  layer : Nat := 0
  page_id : VolatilePagePointer := {}
  low_fence : Nat := 0
  high_fence : Nat := 0
  foster_fence : Nat := 0
  foster_child : Option VolatilePagePointer := none
deriving DecidableEq, Repr

def MasstreePage.lock (p : MasstreePage) : MasstreePage :=
  { p with version := { p.version with locked := true } }

def MasstreePage.unlock (p : MasstreePage) : MasstreePage :=
  { p with version := p.version.unlock_version }

/-- clear_foster (modelled from the spec: removes the foster link; the
masstree_page_impl.hpp body is absent from the source tree). -/
def MasstreePage.clear_foster (p : MasstreePage) : MasstreePage :=
  { p with foster_child := none
           version := { p.version with hasFosterChild := false } }

/-- One minipage of an intermediate page: its own version word, separators
and child pointers (spec section 3, intermediate page). -/
structure MiniPage where
  mini_version_ : PageVersion
  separators_ : Nat → Nat
  pointers_ : Nat → DualPagePointer

/-- An intermediate masstree page. -/
structure MasstreeIntermediatePage where
  storage_id : Nat
  version : PageVersion
  layer : Nat
  page_id : VolatilePagePointer
  low_fence : Nat
  high_fence : Nat
  minipages : Nat → MiniPage

/-- Modelled from the spec: initialize_volatile_page for an intermediate
page — fresh page with the given id, layer, root flag, fences and lock
state, all minipages empty. -/
def initialize_intermediate_page (storage_id : Nat) (page_id : VolatilePagePointer)
    (layer : Nat) (root : Bool) (low high : Nat) (supremum locked : Bool) :
    MasstreeIntermediatePage :=
  { storage_id := storage_id
    version := { locked := locked, isRoot := root, isBorder := false,
                 isHighFenceSupremum := supremum }
    layer := layer
    page_id := page_id
    low_fence := low
    high_fence := high
    minipages := fun _ =>
      { mini_version_ := {}
        separators_ := fun _ => 0
        pointers_ := fun _ => {} } }

/-- Input state of grow_root: the dual root pointer, the root page, the
thread's free-page pool and the transaction's pointer-set entry for this
root pointer. -/
structure GrowRootState where
  storage_id : Nat := 0
  numa_node : Nat := 0
  free_pages : List Nat := []
  root_pointer : DualPagePointer := {}
  root : MasstreePage := {}
  pointer_set_entry : Option VolatilePagePointer := none

/-- Result state of a successful grow_root. -/
structure GrowRootResult where
  new_root : MasstreeIntermediatePage
  root : MasstreePage
  root_pointer : DualPagePointer
  free_pages : List Nat
  pointer_set_entry : Option VolatilePagePointer

inductive GrowRootOut where
  | err (code : ErrorCode)
  | ok (r : GrowRootResult)

/-- MasstreeStoragePimpl::grow_root (lines 114-195): lock the root; if the
foster child is already gone return the retry code; grab one free page;
initialize it as a locked intermediate page whose minipage 0 holds the old
root and the foster child separated by the foster fence; clear the old
root's foster link; replace the root pointer; overwrite the transaction's
pointer-set entry. -/
def grow_root (s : GrowRootState) : GrowRootOut :=
  let root_locked := s.root.lock
  let locked_version := root_locked.version
  if ¬ locked_version.hasFosterChild then GrowRootOut.err ErrorCode.strMasstreeRetry
  else
    match s.free_pages with
    | [] => GrowRootOut.err ErrorCode.memoryNoFreePages
    | offset :: rest =>
      let new_pointer := combine_volatile_page_pointer s.numa_node
        kVolatilePointerFlagSwappable (s.root_pointer.volatile_pointer_.mod_count + 1)
        offset
      let new_root0 := initialize_intermediate_page s.storage_id new_pointer
        root_locked.layer true kInfimumSlice kSupremumSlice true true
      let new_root1 :=
        { new_root0 with version := { new_root0.version with keyCount := 0 } }
      let foster_id := root_locked.foster_child.getD {}
      let p0 : DualPagePointer :=
        { snapshot_pointer_ := 0
          volatile_pointer_ := { s.root_pointer.volatile_pointer_ with flags := 0 } }
      let p1 : DualPagePointer :=
        { snapshot_pointer_ := 0
          volatile_pointer_ := { foster_id with flags := 0 } }
      let mini0 := new_root1.minipages 0
      let mini1 :=
        { mini0 with mini_version_ := { mini0.mini_version_ with locked := true } }
      let mini2 :=
        { mini1 with mini_version_ := { mini1.mini_version_ with keyCount := 1 } }
      let mini3 :=
        { mini2 with pointers_ := fun i =>
            if i = 0 then p0 else if i = 1 then p1 else mini2.pointers_ i }
      let mini4 :=
        { mini3 with separators_ := fun i =>
            if i = 0 then root_locked.foster_fence else mini3.separators_ i }
      let mini5 :=
        { mini4 with mini_version_ := mini4.mini_version_.unlock_version }
      let new_root2 :=
        { new_root1 with minipages := fun i =>
            if i = 0 then mini5 else new_root1.minipages i }
      let root2 := root_locked.clear_foster
      let root_pointer2 : DualPagePointer :=
        { snapshot_pointer_ := 0, volatile_pointer_ := new_pointer }
      let root3 := root2.unlock
      let new_root3 :=
        { new_root2 with version := new_root2.version.unlock_version }
      GrowRootOut.ok
        { new_root := new_root3
          root := root3
          root_pointer := root_pointer2
          free_pages := rest
          pointer_set_entry := some new_pointer }

/-- C2: when grow_root succeeds on a root that still has a foster child
after locking, it consumes exactly one free page; the new intermediate
page's minipage 0 has key count 1, pointer 0 is the old root pointer with
flags cleared, pointer 1 is the former foster child's page id with flags
cleared, and separator 0 is the old root's foster fence; the old root's
foster link is cleared; the root pointer now names the new page; and the
pointer-set entry is overwritten with the new pointer value. -/
theorem C2_grow_root_two_children (s : GrowRootState) (r : GrowRootResult)
    (h : grow_root s = GrowRootOut.ok r) :
    r.free_pages.length + 1 = s.free_pages.length
    ∧ ((r.new_root.minipages 0).mini_version_).keyCount = 1
    ∧ ((r.new_root.minipages 0).pointers_ 0).volatile_pointer_ =
        { s.root_pointer.volatile_pointer_ with flags := 0 }
    ∧ ((r.new_root.minipages 0).pointers_ 1).volatile_pointer_ =
        { s.root.foster_child.getD {} with flags := 0 }
    ∧ (r.new_root.minipages 0).separators_ 0 = s.root.foster_fence
    ∧ r.root.foster_child = none
    ∧ r.root.version.hasFosterChild = false
    ∧ r.root_pointer.volatile_pointer_ =
        combine_volatile_page_pointer s.numa_node kVolatilePointerFlagSwappable
          (s.root_pointer.volatile_pointer_.mod_count + 1) (s.free_pages.headD 0)
    ∧ r.root_pointer.snapshot_pointer_ = 0
    ∧ r.pointer_set_entry = some r.root_pointer.volatile_pointer_ := by
  unfold grow_root at h
  by_cases hf : s.root.lock.version.hasFosterChild
  · simp only [hf, not_true, if_false] at h
    cases hfp : s.free_pages with
    | nil => rw [hfp] at h; exact absurd h (by simp)
    | cons offset rest =>
      rw [hfp] at h
      simp only at h
      cases h
      refine ⟨by simp [hfp], ?_, ?_, ?_, ?_, ?_, ?_, ?_, ?_, ?_⟩ <;>
        simp [MasstreePage.lock, MasstreePage.unlock, MasstreePage.clear_foster,
          initialize_intermediate_page, PageVersion.unlock_version, hfp]
  · simp only [hf, not_false_iff, if_true] at h
    exact absurd h (by simp)

/-- Concrete input for the C2 witness: a root with a foster child and one
free page. -/
def c2State : GrowRootState :=
  { storage_id := 7
    numa_node := 1
    free_pages := [42]
    root_pointer :=
      { snapshot_pointer_ := 0
        volatile_pointer_ := ⟨0, 2, 3, 9⟩ }
    root :=
      { version := { hasFosterChild := true, isRoot := true, isBorder := true }
        layer := 0
        page_id := ⟨0, 0, 0, 9⟩
        low_fence := 0
        high_fence := kSupremumSlice
        foster_fence := 5000
        foster_child := some ⟨1, 0, 0, 17⟩ }
    pointer_set_entry := some ⟨0, 2, 3, 9⟩ }

/-- The successful result of grow_root on the C2 witness state. -/
def c2Result : GrowRootResult :=
  match grow_root c2State with
  | GrowRootOut.ok r => r
  | GrowRootOut.err _ =>
    { new_root := initialize_intermediate_page 0 {} 0 true 0 0 true false
      root := {}
      root_pointer := {}
      free_pages := []
      pointer_set_entry := none }

/-- Witness for C2 at the concrete state. -/
theorem C2_grow_root_two_children_witness :
    grow_root c2State = GrowRootOut.ok c2Result
    ∧ (c2Result.free_pages.length + 1 = c2State.free_pages.length
       ∧ ((c2Result.new_root.minipages 0).mini_version_).keyCount = 1
       ∧ ((c2Result.new_root.minipages 0).pointers_ 0).volatile_pointer_ =
           { c2State.root_pointer.volatile_pointer_ with flags := 0 }
       ∧ ((c2Result.new_root.minipages 0).pointers_ 1).volatile_pointer_ =
           { c2State.root.foster_child.getD {} with flags := 0 }
       ∧ (c2Result.new_root.minipages 0).separators_ 0 = c2State.root.foster_fence
       ∧ c2Result.root.foster_child = none
       ∧ c2Result.root.version.hasFosterChild = false
       ∧ c2Result.root_pointer.volatile_pointer_ =
           combine_volatile_page_pointer c2State.numa_node kVolatilePointerFlagSwappable
             (c2State.root_pointer.volatile_pointer_.mod_count + 1)
             (c2State.free_pages.headD 0)
       ∧ c2Result.root_pointer.snapshot_pointer_ = 0
       ∧ c2Result.pointer_set_entry = some c2Result.root_pointer.volatile_pointer_) :=
  ⟨rfl, C2_grow_root_two_children c2State c2Result rfl⟩

/-! ### Border pages, the optimistic read protocol, and the record
operations built on it (claims C3, C7) -/

/-- One slot of a masstree border page (spec section 3: slice, key length,
suffix, owner-id, payload; a slot may instead point to the next layer).
The page body layout of masstree_page_impl.hpp is absent from the source
tree and modelled from the spec. -/
structure BorderSlot where
  slice : Nat := 0
  remaining_key_length : Nat := 0
  suffix : List Nat := []
  owner_id : XctId := {}
  payload : List Nat := []
  points_to_layer : Bool := false
  next_layer : DualPagePointer := {}
deriving DecidableEq, Repr

instance : Inhabited BorderSlot := ⟨{}⟩

/-- A masstree border page. -/
structure MasstreeBorderPage where
  storage_id : Nat := 0
  version : PageVersion := {}
  layer : Nat := 0
  page_id : VolatilePagePointer := {}
  low_fence : Nat := 0
  high_fence : Nat := 0
  foster_fence : Nat := 0
  foster_child : Option VolatilePagePointer := none
  slots : List BorderSlot := []
deriving DecidableEq, Repr

instance : Inhabited MasstreeBorderPage := ⟨{}⟩

def MasstreeBorderPage.does_point_to_layer (p : MasstreeBorderPage) (i : Nat) : Bool :=
  (p.slots.getD i default).points_to_layer

def MasstreeBorderPage.get_owner_id (p : MasstreeBorderPage) (i : Nat) : XctId :=
  (p.slots.getD i default).owner_id

def MasstreeBorderPage.get_payload_length (p : MasstreeBorderPage) (i : Nat) : Nat :=
  (p.slots.getD i default).payload.length

def MasstreeBorderPage.get_suffix_length (p : MasstreeBorderPage) (i : Nat) : Nat :=
  (p.slots.getD i default).suffix.length

/-- The record bytes of a slot: the key suffix followed by the payload. -/
def MasstreeBorderPage.get_record (p : MasstreeBorderPage) (i : Nat) : List Nat :=
  (p.slots.getD i default).suffix ++ (p.slots.getD i default).payload

/-- Modelled from the spec: xct::optimistic_read_protocol
(xct_optimistic_read_impl.hpp, absent from the source tree), following the
read protocol of spec section 4.3: read the owner-id (if moved, return a
retry code so the caller re-navigates; if locked, spin and read again),
run the payload-copying body, re-read the owner-id, and repeat when it
changed or is now locked; a body error returns immediately.  The values
each iteration observes for the owner-id (first read, re-read) are drawn
from the observation stream obs; the body receives the iteration index so
concurrently changing record bytes can be modelled.  Fuel bounds the spin;
none models an execution still spinning. -/
def optimistic_read_protocol {σ : Type} (handler : Nat → XctId → σ → ErrorCode × σ)
    (obs : Nat → XctId × XctId) : Nat → Nat → σ → Option (ErrorCode × σ × Nat)
  | 0, _, _ => none
  | fuel + 1, i, s =>
    let observed := (obs i).1
    if observed.moved then some (ErrorCode.strMasstreeRetry, s, i)
    else if observed.locked then optimistic_read_protocol handler obs fuel (i + 1) s
    else
      let hr := handler i observed s
      if hr.1 ≠ ErrorCode.ok then some (hr.1, hr.2, i)
      else if (obs i).2 ≠ observed ∨ (obs i).2.locked then
        optimistic_read_protocol handler obs fuel (i + 1) hr.2
      else some (ErrorCode.ok, hr.2, i)

/-- Master induction over the protocol loop: if the body preserves an
invariant Inv on the threaded state and every body result (and the moved
early return) satisfies a goal predicate Good relating code, state and
iteration, then every terminating run satisfies Good. -/
lemma optimistic_read_spec {σ : Type} (handler : Nat → XctId → σ → ErrorCode × σ)
    (obs : Nat → XctId × XctId) (Inv : σ → Prop) (Good : ErrorCode → σ → Nat → Prop)
    (hmoved : ∀ s i, Inv s → Good ErrorCode.strMasstreeRetry s i)
    (hh : ∀ i ob s, Inv s →
      Good (handler i ob s).1 (handler i ob s).2 i
      ∧ ((handler i ob s).1 = ErrorCode.ok → Inv (handler i ob s).2)) :
    ∀ fuel i s code s2 j, Inv s →
      optimistic_read_protocol handler obs fuel i s = some (code, s2, j) →
      Good code s2 j := by
  intro fuel
  induction fuel with
  | zero => intro i s code s2 j hInv h; simp [optimistic_read_protocol] at h
  | succ n ih =>
    intro i s code s2 j hInv h
    rw [optimistic_read_protocol] at h
    simp only at h
    split at h
    · simp only [Option.some.injEq, Prod.mk.injEq] at h
      obtain ⟨h1, h2, h3⟩ := h
      subst h1; subst h2; subst h3
      exact hmoved s i hInv
    · split at h
      · exact ih (i + 1) s code s2 j hInv h
      · split at h
        · simp only [Option.some.injEq, Prod.mk.injEq] at h
          obtain ⟨h1, h2, h3⟩ := h
          subst h1; subst h2; subst h3
          exact (hh i (obs i).1 s hInv).1
        · rename_i hcon
          push_neg at hcon
          split at h
          · exact ih (i + 1) _ code s2 j ((hh i (obs i).1 s hInv).2 hcon) h
          · simp only [Option.some.injEq, Prod.mk.injEq] at h
            obtain ⟨h1, h2, h3⟩ := h
            subst h1; subst h2; subst h3
            have := (hh i (obs i).1 s hInv).1
            rwa [hcon] at this

/-- If the body writes f i into the state exactly when it returns OK, a
successful run hands back f applied to the succeeding iteration. -/
lemma optimistic_read_ok_state {σ : Type} (handler : Nat → XctId → σ → ErrorCode × σ)
    (obs : Nat → XctId × XctId) (f : Nat → σ)
    (hh : ∀ i ob s, (handler i ob s).1 = ErrorCode.ok → (handler i ob s).2 = f i) :
    ∀ fuel i s code s2 j,
      optimistic_read_protocol handler obs fuel i s = some (code, s2, j) →
      code = ErrorCode.ok → s2 = f j := by
  intro fuel i s code s2 j h hcode
  have := optimistic_read_spec handler obs (fun _ => True)
    (fun c st k => c = ErrorCode.ok → st = f k)
    (fun st k _ hc => absurd hc (by decide))
    (fun k ob st _ => ⟨fun hc => hh k ob st hc, fun _ => trivial⟩)
    fuel i s code s2 j trivial h
  exact this hcode

/-! #### increment_general (claim C3) -/

/-- The body lambda of MasstreeStoragePimpl::increment_general (lines
1030-1045): check next-layer, deleted and payload-length conditions, then
read the stored payload into the local temporary.  payload_at i is the
value the record bytes hold when iteration i reads them. -/
def increment_general_handler {P : Type} (border : MasstreeBorderPage) (index : Nat)
    (payload_offset payload_size : Nat) (payload_at : Nat → P) :
    Nat → XctId → P → ErrorCode × P :=
  fun i observed tmp =>
    if border.does_point_to_layer index then (ErrorCode.strMasstreeRetry, tmp)
    else if observed.deleted then (ErrorCode.strKeyNotFound, tmp)
    else if border.get_payload_length index < payload_offset + payload_size then
      (ErrorCode.strTooShortPayload, tmp)
    else (ErrorCode.ok, payload_at i)

/-- Result of increment_general: error code, the caller's value argument
after the call, the payload staged in the overwrite log record (none if no
log was reserved), and the iteration whose read succeeded. -/
structure IncrementOut (P : Type) where
  code : ErrorCode
  value : P
  staged : Option P
  iter : Nat
deriving Repr, DecidableEq

/-- MasstreeStoragePimpl::increment_general (lines 1011-1065): run the
optimistic read protocol with a local temporary, and only after it
succeeds add the temporary to the caller's value and stage an overwrite
log carrying the sum. -/
def increment_general {P : Type} [Add P] (border : MasstreeBorderPage) (index : Nat)
    (payload_offset payload_size : Nat) (payload_at : Nat → P)
    (obs : Nat → XctId × XctId) (fuel : Nat) (tmp0 : P) (value : P) :
    Option (IncrementOut P) :=
  match optimistic_read_protocol
      (increment_general_handler border index payload_offset payload_size payload_at)
      obs fuel 0 tmp0 with
  | none => none
  | some (code, tmp, i) =>
    if code ≠ ErrorCode.ok then
      some { code := code, value := value, staged := none, iter := i }
    else
      some { code := ErrorCode.ok, value := value + tmp,
             staged := some (value + tmp), iter := i }

lemma increment_handler_ok {P : Type} (border : MasstreeBorderPage) (index : Nat)
    (payload_offset payload_size : Nat) (payload_at : Nat → P) :
    ∀ i ob s,
      (increment_general_handler border index payload_offset payload_size payload_at
        i ob s).1 = ErrorCode.ok →
      (increment_general_handler border index payload_offset payload_size payload_at
        i ob s).2 = payload_at i := by
  intro i ob s h
  unfold increment_general_handler at h ⊢
  by_cases h1 : border.does_point_to_layer index
  · simp [h1] at h
  · by_cases h2 : ob.deleted
    · simp [h1, h2] at h
    · by_cases h3 : border.get_payload_length index < payload_offset + payload_size
      · simp [h1, h2, h3] at h
      · simp [h1, h2, h3]

/-- C3: whenever increment_general returns an error (next-layer retry,
deleted-record not-found, too-short payload, or a moved owner seen by the
optimistic read), the caller's value argument comes back unchanged and no
log is staged; only when the optimistic read protocol succeeds is the value
incremented, by exactly the payload observed at the single succeeding
iteration (each retry having re-read into the local temporary), and the
staged overwrite carries that same sum. -/
theorem C3_increment_general_idempotent (P : Type) (inst : Add P)
    (border : MasstreeBorderPage) (index payload_offset payload_size : Nat)
    (payload_at : Nat → P) (obs : Nat → XctId × XctId) (fuel : Nat)
    (tmp0 value : P) (r : IncrementOut P)
    (h : increment_general border index payload_offset payload_size payload_at obs
      fuel tmp0 value = some r) :
    (r.code ≠ ErrorCode.ok → r.value = value ∧ r.staged = none)
    ∧ (r.code = ErrorCode.ok →
        r.value = value + payload_at r.iter
        ∧ r.staged = some (value + payload_at r.iter)) := by
  unfold increment_general at h
  cases hp : optimistic_read_protocol
      (increment_general_handler border index payload_offset payload_size payload_at)
      obs fuel 0 tmp0 with
  | none => rw [hp] at h; cases h
  | some res =>
    obtain ⟨code, tmp, i⟩ := res
    rw [hp] at h
    by_cases hc : code = ErrorCode.ok
    · subst hc
      simp only [ne_eq, not_true, if_false, if_neg] at h
      have htmp : tmp = payload_at i :=
        optimistic_read_ok_state _ obs (fun j => payload_at j)
          (increment_handler_ok border index payload_offset payload_size payload_at)
          fuel 0 tmp0 _ tmp i hp rfl
      cases h
      subst htmp
      constructor
      · intro hne; exact absurd rfl hne
      · intro _; exact ⟨rfl, rfl⟩
    · simp only [ne_eq, hc, not_false_iff, if_true] at h
      cases h
      constructor
      · intro _; exact ⟨rfl, rfl⟩
      · intro hok; exact absurd hok hc

/-- A concrete border page with one live record for witnesses: key slice 3,
no suffix, payload bytes [7, 7]. -/
def wBorder : MasstreeBorderPage :=
  { storage_id := 1
    version := { isBorder := true, isRoot := true, keyCount := 1 }
    slots := [ { slice := 3, remaining_key_length := 8, suffix := []
                 owner_id := { epoch := 2, ordinal := 1 }
                 payload := [7, 7] } ] }

/-- Quiet observation stream: the owner-id is stable, unlocked, unmoved. -/
def wObs : Nat → XctId × XctId :=
  fun _ => ({ epoch := 2, ordinal := 1 }, { epoch := 2, ordinal := 1 })

/-- Witness for C3: incrementing by 5 over a stored (modelled) value 7. -/
theorem C3_increment_general_idempotent_witness :
    increment_general wBorder 0 0 2 (fun _ => (7 : Int)) wObs 3 0 5 =
      some { code := ErrorCode.ok, value := 12, staged := some 12, iter := 0 }
    ∧ (({ code := ErrorCode.ok, value := 12, staged := some 12, iter := 0 } :
          IncrementOut Int).code = ErrorCode.ok →
        (12 : Int) = 5 + (fun _ => (7 : Int)) 0
        ∧ (some 12 : Option Int) = some (5 + (fun _ => (7 : Int)) 0)) := by
  constructor
  · decide
  · exact (C3_increment_general_idempotent Int inferInstance wBorder 0 0 2
      (fun _ => (7 : Int)) wObs 3 0 5
      { code := ErrorCode.ok, value := 12, staged := some 12, iter := 0 }
      (by decide)).2

/-! #### retrieve_general (claim C7) -/

/-- The body lambda of MasstreeStoragePimpl::retrieve_general (lines
851-868), acting on the state (payload capacity, caller buffer): check
next-layer and deleted; if the record's payload length exceeds the
capacity, write the length into the capacity and return buffer-too-small
without touching the buffer; otherwise write the length into the capacity
and copy exactly payload_length record bytes past the suffix into the
buffer. -/
def retrieve_general_handler (border : MasstreeBorderPage) (index : Nat) :
    Nat → XctId → (Nat × List Nat) → ErrorCode × (Nat × List Nat) :=
  fun _ observed s =>
    if border.does_point_to_layer index then (ErrorCode.strMasstreeRetry, s)
    else if observed.deleted then (ErrorCode.strKeyNotFound, s)
    else
      let payload_length := border.get_payload_length index
      if s.1 < payload_length then
        (ErrorCode.strTooSmallPayloadBuffer, (payload_length, s.2))
      else
        (ErrorCode.ok,
          (payload_length,
            ((border.get_record index).drop (border.get_suffix_length index)).take
              payload_length))

/-- MasstreeStoragePimpl::retrieve_general (lines 840-871): the optimistic
read protocol driven by the retrieval body. -/
def retrieve_general (border : MasstreeBorderPage) (index : Nat)
    (obs : Nat → XctId × XctId) (fuel : Nat) (s : Nat × List Nat) :
    Option (ErrorCode × (Nat × List Nat) × Nat) :=
  optimistic_read_protocol (retrieve_general_handler border index) obs fuel 0 s

/-- The bytes retrieve_general copies on success are exactly the slot's
payload. -/
lemma retrieve_copied_eq_payload (border : MasstreeBorderPage) (index : Nat) :
    ((border.get_record index).drop (border.get_suffix_length index)).take
        (border.get_payload_length index) =
      (border.slots.getD index default).payload := by
  unfold MasstreeBorderPage.get_record MasstreeBorderPage.get_suffix_length
    MasstreeBorderPage.get_payload_length
  rw [List.drop_left, List.take_length]

/-- Case analysis of the retrieval body: starting from the caller's state
or the already-copied state, the body preserves that disjunction, returns
buffer-too-small only with the payload length written and the caller's
buffer untouched, and returns OK only with the copied state. -/
lemma retrieve_handler_good (border : MasstreeBorderPage) (index : Nat)
    (cap0 : Nat) (buf0 : List Nat) (i : Nat) (ob : XctId) (s : Nat × List Nat)
    (hs : s = (cap0, buf0)
       ∨ s = (border.get_payload_length index,
              ((border.get_record index).drop (border.get_suffix_length index)).take
                (border.get_payload_length index))) :
    ((retrieve_general_handler border index i ob s).1 =
        ErrorCode.strTooSmallPayloadBuffer →
      (retrieve_general_handler border index i ob s).2 =
        (border.get_payload_length index, buf0))
    ∧ ((retrieve_general_handler border index i ob s).1 = ErrorCode.ok →
      (retrieve_general_handler border index i ob s).2 =
        (border.get_payload_length index,
          ((border.get_record index).drop (border.get_suffix_length index)).take
            (border.get_payload_length index)))
    ∧ ((retrieve_general_handler border index i ob s).1 = ErrorCode.ok →
       ((retrieve_general_handler border index i ob s).2 = (cap0, buf0)
        ∨ (retrieve_general_handler border index i ob s).2 =
           (border.get_payload_length index,
             ((border.get_record index).drop (border.get_suffix_length index)).take
               (border.get_payload_length index)))) := by
  unfold retrieve_general_handler
  by_cases hp : border.does_point_to_layer index
  · simp only [hp, if_true]
    refine ⟨?_, ?_, ?_⟩ <;> · intro hc; cases hc
  · simp only [hp, Bool.false_eq_true, if_false]
    by_cases hd : ob.deleted
    · simp only [hd, if_true]
      refine ⟨?_, ?_, ?_⟩ <;> · intro hc; cases hc
    · simp only [hd, Bool.false_eq_true, if_false]
      by_cases hcap : s.1 < border.get_payload_length index
      · simp only [hcap, if_true]
        refine ⟨?_, ?_, ?_⟩
        · intro _
          rcases hs with hs | hs
          · rw [hs]
          · rw [hs] at hcap; simp at hcap
        · intro hc; cases hc
        · intro hc; cases hc
      · simp [hcap]

/-- C7: for every retrieve_general call: if it returns buffer-too-small,
the capacity out-parameter holds the record's payload length and the
caller's buffer is untouched; if it returns OK, the capacity holds the
payload length and the buffer holds exactly that many bytes, namely the
record bytes past the key suffix. -/
theorem C7_retrieve_buffer_contract (border : MasstreeBorderPage) (index : Nat)
    (obs : Nat → XctId × XctId) (fuel : Nat) (cap0 : Nat) (buf0 : List Nat)
    (code : ErrorCode) (s2 : Nat × List Nat) (j : Nat)
    (h : retrieve_general border index obs fuel (cap0, buf0) = some (code, s2, j)) :
    (code = ErrorCode.strTooSmallPayloadBuffer →
      s2.1 = border.get_payload_length index ∧ s2.2 = buf0)
    ∧ (code = ErrorCode.ok →
      s2.1 = border.get_payload_length index
      ∧ s2.2 = (border.slots.getD index default).payload
      ∧ s2.2.length = border.get_payload_length index) := by
  have hmain := optimistic_read_spec (retrieve_general_handler border index) obs
    (fun s => s = (cap0, buf0)
      ∨ s = (border.get_payload_length index,
             ((border.get_record index).drop (border.get_suffix_length index)).take
               (border.get_payload_length index)))
    (fun c st _ =>
      (c = ErrorCode.strTooSmallPayloadBuffer →
        st = (border.get_payload_length index, buf0))
      ∧ (c = ErrorCode.ok →
        st = (border.get_payload_length index,
              ((border.get_record index).drop (border.get_suffix_length index)).take
                (border.get_payload_length index))))
    (fun st k _ => by
      refine ⟨?_, ?_⟩ <;> · intro hc; cases hc)
    (fun k ob st hInv => by
      refine ⟨⟨?_, ?_⟩, ?_⟩
      · exact (retrieve_handler_good border index cap0 buf0 k ob st hInv).1
      · exact (retrieve_handler_good border index cap0 buf0 k ob st hInv).2.1
      · exact (retrieve_handler_good border index cap0 buf0 k ob st hInv).2.2)
    fuel 0 (cap0, buf0) code s2 j (Or.inl rfl) h
  constructor
  · intro hc
    have := hmain.1 hc
    rw [this]
    exact ⟨rfl, rfl⟩
  · intro hc
    have := hmain.2 hc
    rw [this]
    refine ⟨rfl, retrieve_copied_eq_payload border index, ?_⟩
    rw [retrieve_copied_eq_payload border index]
    rfl

/-- Witness for C7: a successful read of the two-byte payload with
capacity 16, and simultaneously the buffer-too-small outcome with
capacity 1, applying the theorem at both concrete runs. -/
theorem C7_retrieve_buffer_contract_witness :
    (retrieve_general wBorder 0 wObs 2 (16, []) =
        some (ErrorCode.ok, (2, [7, 7]), 0)
     ∧ ((2, [7, 7]) : Nat × List Nat).1 = wBorder.get_payload_length 0
     ∧ ((2, [7, 7]) : Nat × List Nat).2 = (wBorder.slots.getD 0 default).payload)
    ∧ (retrieve_general wBorder 0 wObs 2 (1, []) =
        some (ErrorCode.strTooSmallPayloadBuffer, (2, []), 0)
     ∧ ((2, []) : Nat × List Nat).1 = wBorder.get_payload_length 0
     ∧ ((2, []) : Nat × List Nat).2 = ([] : List Nat)) := by
  refine ⟨⟨by decide, ?_⟩, ⟨by decide, ?_⟩⟩
  · have := (C7_retrieve_buffer_contract wBorder 0 wObs 2 16 []
      ErrorCode.ok (2, [7, 7]) 0 (by decide)).2 rfl
    exact ⟨this.1, this.2.1⟩
  · have := (C7_retrieve_buffer_contract wBorder 0 wObs 2 1 []
      ErrorCode.strTooSmallPayloadBuffer (2, []) 0 (by decide)).1 rfl
    exact this

/-! ### Reserving a new record slot (claim C4)

From MasstreeStoragePimpl::reserve_record_new_record_apply,
masstree_storage_pimpl.cpp lines 814-838. -/

/-- Modelled from the spec: PageVersion::set_inserting_and_increment_key_count
(masstree_page_impl.hpp absent from the source tree); the spec's reserve
path appends a new slot, "incrementing inserting and then key_count". -/
def set_inserting_and_increment_key_count (v : PageVersion) : PageVersion :=
  { v with inserting := true, keyCount := v.keyCount + 1 }

/-- Modelled from the spec: MasstreeBorderPage::reserve_record_space
(masstree_page_impl.hpp absent from the source tree) appends a slot at the
next index carrying the given owner-id, slice, suffix and key length, with
payload_count bytes of still-uninitialized payload space (zeros here). -/
def MasstreeBorderPage.reserve_record_space (page : MasstreeBorderPage)
    (initial_id : XctId) (slice : Nat) (suffix : List Nat)
    (remaining_key_length payload_count : Nat) : MasstreeBorderPage :=
  { page with slots := page.slots ++
      [ { slice := slice
          remaining_key_length := remaining_key_length
          suffix := suffix
          owner_id := initial_id
          payload := List.replicate payload_count 0
          points_to_layer := false
          next_layer := {} } ] }

/-- MasstreeStoragePimpl::reserve_record_new_record_apply (lines 814-838):
under the page lock, set the inserting marker and bump the key count, build
a clean initial owner-id, mark it deleted, and reserve the record space
under that owner-id. -/
def reserve_record_new_record_apply (thread_id : Nat) (target : MasstreeBorderPage)
    (slice : Nat) (remaining_key_length : Nat) (suffix : List Nat)
    (payload_count : Nat) : MasstreeBorderPage :=
  let target2 :=
    { target with version := set_inserting_and_increment_key_count target.version }
  let initial_id := (XctId.set_clean kEpochInitialCurrent 0 thread_id).set_deleted
  target2.reserve_record_space initial_id slice suffix remaining_key_length
    payload_count

/-- C4: every slot created by the reserve path on a locked border page is
born logically deleted (owner-id deleted bit set), and the operation sets
the inserting marker and increments the key count (and slot count) by
exactly one. -/
theorem C4_new_record_born_deleted (thread_id : Nat) (target : MasstreeBorderPage)
    (slice remaining_key_length payload_count : Nat) (suffix : List Nat)
    (hlock : target.version.locked = true) :
    ((reserve_record_new_record_apply thread_id target slice remaining_key_length
        suffix payload_count).slots.getLast?).map (fun s => s.owner_id.deleted) =
      some true
    ∧ (reserve_record_new_record_apply thread_id target slice remaining_key_length
        suffix payload_count).version.inserting = true
    ∧ (reserve_record_new_record_apply thread_id target slice remaining_key_length
        suffix payload_count).version.keyCount = target.version.keyCount + 1
    ∧ (reserve_record_new_record_apply thread_id target slice remaining_key_length
        suffix payload_count).slots.length = target.slots.length + 1 := by
  unfold reserve_record_new_record_apply MasstreeBorderPage.reserve_record_space
    set_inserting_and_increment_key_count
  refine ⟨?_, rfl, rfl, by simp⟩
  rw [List.getLast?_concat]
  rfl

/-- Witness for C4 on a concrete locked page with one existing slot. -/
theorem C4_new_record_born_deleted_witness :
    ({ wBorder with version := { wBorder.version with locked := true }
       : MasstreeBorderPage }).version.locked = true
    ∧ (((reserve_record_new_record_apply 3
          { wBorder with version := { wBorder.version with locked := true } }
          9 8 [] 4).slots.getLast?).map (fun s => s.owner_id.deleted) = some true
       ∧ (reserve_record_new_record_apply 3
          { wBorder with version := { wBorder.version with locked := true } }
          9 8 [] 4).version.inserting = true
       ∧ (reserve_record_new_record_apply 3
          { wBorder with version := { wBorder.version with locked := true } }
          9 8 [] 4).version.keyCount =
            ({ wBorder with version := { wBorder.version with locked := true }
               : MasstreeBorderPage }).version.keyCount + 1
       ∧ (reserve_record_new_record_apply 3
          { wBorder with version := { wBorder.version with locked := true } }
          9 8 [] 4).slots.length =
            ({ wBorder with version := { wBorder.version with locked := true }
               : MasstreeBorderPage }).slots.length + 1) :=
  ⟨rfl,
   C4_new_record_born_deleted 3
     { wBorder with version := { wBorder.version with locked := true } }
     9 8 4 [] rfl⟩

/-! ### Creating a next layer (claims C5, C10)

From MasstreeStoragePimpl::create_next_layer, masstree_storage_pimpl.cpp
lines 500-568.  The embedding focuses the state on the parts the function
touches: the free-page pool and the parent slot at parent_index. -/

/-- Modelled from the spec: initialize_volatile_page for a border page —
a fresh root border page for the next layer with infimum/supremum fences
and no slots. -/
def initialize_border_page (storage_id : Nat) (page_id : VolatilePagePointer)
    (layer : Nat) (root locked : Bool) : MasstreeBorderPage :=
  { storage_id := storage_id
    version := { locked := locked, isRoot := root, isBorder := true,
                 isHighFenceSupremum := true }
    layer := layer
    page_id := page_id
    low_fence := kInfimumSlice
    high_fence := kSupremumSlice
    foster_fence := kInfimumSlice
    foster_child := none
    slots := [] }

/-- Modelled from the spec: MasstreeBorderPage::copy_initial_record copies
the parent's record — owner-id included, so a deleted record stays deleted
in the copy — as the sole initial entry of the new layer root, consuming
the first 8 suffix bytes as the next layer's slice. -/
def MasstreeBorderPage.copy_initial_record (root : MasstreeBorderPage)
    (parent_slot : BorderSlot) : MasstreeBorderPage :=
  { root with slots :=
      [ { slice := 0
          remaining_key_length := parent_slot.remaining_key_length - 8
          suffix := parent_slot.suffix.drop 8
          owner_id := parent_slot.owner_id
          payload := parent_slot.payload
          points_to_layer := false
          next_layer := {} } ] }

/-- Input of create_next_layer: the pool, the numa node, the parent page's
storage id and layer, and the parent slot being converted. -/
structure CreateNextLayerIn where
  storage_id : Nat := 0
  numa_node : Nat := 0
  free_pages : List Nat := []
  parent_layer : Nat := 0
  slot : BorderSlot := {}
deriving Repr

/-- Result of create_next_layer: error code, the parent slot afterwards,
the new layer root if this thread installed one, and the remaining pool. -/
structure CreateNextLayerRes where
  code : ErrorCode
  slot : BorderSlot
  new_root : Option MasstreeBorderPage
  free_pages : List Nat
deriving DecidableEq, Repr

/-- MasstreeStoragePimpl::create_next_layer (lines 500-568): grab a free
page; lock the parent slot's owner-id unconditionally; if a concurrent
thread already made the slot a next-layer pointer, release the page back
to the pool and release the keylock; otherwise initialize the grabbed page
as the locked next-layer root, copy the record into it, point the parent
slot at it, and release the owner-id with the ordinal incremented (rolling
into the next epoch at ordinal 0xFFFF) and the deleted bit cleared when the
original record was deleted. -/
def create_next_layer (s : CreateNextLayerIn) : CreateNextLayerRes :=
  match s.free_pages with
  | [] => { code := ErrorCode.memoryNoFreePages, slot := s.slot,
            new_root := none, free_pages := [] }
  | offset :: rest =>
    let pointer : DualPagePointer :=
      { snapshot_pointer_ := 0
        volatile_pointer_ := combine_volatile_page_pointer s.numa_node 0 0 offset }
    let parent_lock := s.slot.owner_id.keylock_unconditional
    if s.slot.points_to_layer then
      { code := ErrorCode.ok
        slot := { s.slot with owner_id := parent_lock.release_keylock }
        new_root := none
        free_pages := offset :: rest }
    else
      let root0 := initialize_border_page s.storage_id pointer.volatile_pointer_
        (s.parent_layer + 1) true true
      let root1 := root0.copy_initial_record s.slot
      let root2 := { root1 with version := root1.version.unlock_version }
      let slot2 := { s.slot with points_to_layer := true, next_layer := pointer }
      let unlocked_id := parent_lock.release_keylock
      let ordinal := unlocked_id.ordinal
      let id2 :=
        if ordinal ≠ 65535 then { unlocked_id with ordinal := ordinal + 1 }
        else { unlocked_id with epoch := unlocked_id.epoch + 1, ordinal := 0 }
      let id3 := if id2.deleted then id2.set_notdeleted else id2
      { code := ErrorCode.ok
        slot := { slot2 with owner_id := id3 }
        new_root := some root2
        free_pages := rest }

/-- C5: when create_next_layer itself installs the new layer, it releases
the parent slot's owner-id with the ordinal incremented by exactly one when
the previous ordinal is below 0xFFFF, and with ordinal 0 and the epoch
advanced by one when the previous ordinal is 0xFFFF. -/
theorem C5_create_next_layer_ordinal (s : CreateNextLayerIn)
    (hlayer : s.slot.points_to_layer = false)
    (hfree : s.free_pages ≠ [])
    (hord : s.slot.owner_id.ordinal < 65536) :
    (create_next_layer s).code = ErrorCode.ok
    ∧ (s.slot.owner_id.ordinal < 65535 →
        (create_next_layer s).slot.owner_id.ordinal = s.slot.owner_id.ordinal + 1
        ∧ (create_next_layer s).slot.owner_id.epoch = s.slot.owner_id.epoch)
    ∧ (s.slot.owner_id.ordinal = 65535 →
        (create_next_layer s).slot.owner_id.ordinal = 0
        ∧ (create_next_layer s).slot.owner_id.epoch = s.slot.owner_id.epoch + 1) := by
  cases hfp : s.free_pages with
  | nil => exact absurd hfp hfree
  | cons offset rest =>
    refine ⟨?_, ?_, ?_⟩
    · simp [create_next_layer, hfp, hlayer]
    · intro hlt
      have hne : s.slot.owner_id.ordinal ≠ 65535 := by omega
      by_cases hdel : s.slot.owner_id.deleted <;>
        simp [create_next_layer, hfp, hlayer, hne, hdel,
          XctId.keylock_unconditional, XctId.release_keylock, XctId.set_notdeleted]
    · intro heq
      by_cases hdel : s.slot.owner_id.deleted <;>
        simp [create_next_layer, hfp, hlayer, heq, hdel,
          XctId.keylock_unconditional, XctId.release_keylock, XctId.set_notdeleted]

/-- Concrete input for C5/C10 witnesses: a live conflicting record with
ordinal 4. -/
def c5In : CreateNextLayerIn :=
  { storage_id := 1
    numa_node := 0
    free_pages := [11, 12]
    parent_layer := 0
    slot := { slice := 3, remaining_key_length := 16, suffix := [1, 2, 3, 4, 5, 6, 7, 8, 9]
              owner_id := { epoch := 2, ordinal := 4 }
              payload := [7, 7] } }

/-- Witness for C5 at the concrete input. -/
theorem C5_create_next_layer_ordinal_witness :
    (c5In.slot.points_to_layer = false
     ∧ c5In.free_pages ≠ []
     ∧ c5In.slot.owner_id.ordinal < 65536)
    ∧ ((create_next_layer c5In).code = ErrorCode.ok
       ∧ (c5In.slot.owner_id.ordinal < 65535 →
           (create_next_layer c5In).slot.owner_id.ordinal =
             c5In.slot.owner_id.ordinal + 1
           ∧ (create_next_layer c5In).slot.owner_id.epoch = c5In.slot.owner_id.epoch)
       ∧ (c5In.slot.owner_id.ordinal = 65535 →
           (create_next_layer c5In).slot.owner_id.ordinal = 0
           ∧ (create_next_layer c5In).slot.owner_id.epoch =
               c5In.slot.owner_id.epoch + 1)) :=
  ⟨by decide,
   C5_create_next_layer_ordinal c5In (by decide) (by decide) (by decide)⟩

/-- C10: after create_next_layer returns OK having installed the layer
itself, the parent slot is a next-layer pointer whose owner-id has the
deleted bit cleared — when the original record was deleted, the deleted
status is inherited only by the copied sole record of the new layer root —
and when a concurrent thread had already converted the slot, the grabbed
page is released back to the pool and the slot is unchanged apart from the
lock release. -/
theorem C10_next_layer_pointer_not_deleted (s : CreateNextLayerIn)
    (hfree : s.free_pages ≠ []) :
    (s.slot.points_to_layer = false →
      (create_next_layer s).code = ErrorCode.ok
      ∧ (create_next_layer s).slot.owner_id.deleted = false
      ∧ (create_next_layer s).slot.points_to_layer = true
      ∧ (s.slot.owner_id.deleted = true →
          ((create_next_layer s).new_root.map
            (fun p => (p.slots.getD 0 default).owner_id.deleted)) = some true))
    ∧ (s.slot.points_to_layer = true →
      (create_next_layer s).code = ErrorCode.ok
      ∧ (create_next_layer s).free_pages = s.free_pages
      ∧ (create_next_layer s).new_root = none
      ∧ (create_next_layer s).slot =
          { s.slot with owner_id := { s.slot.owner_id with locked := false } }) := by
  cases hfp : s.free_pages with
  | nil => exact absurd hfp hfree
  | cons offset rest =>
    constructor
    · intro hlayer
      refine ⟨?_, ?_, ?_, ?_⟩
      · simp [create_next_layer, hfp, hlayer]
      · by_cases hdel : s.slot.owner_id.deleted <;>
          by_cases hne : s.slot.owner_id.ordinal = 65535 <;>
          simp [create_next_layer, hfp, hlayer, hdel, hne,
            XctId.keylock_unconditional, XctId.release_keylock, XctId.set_notdeleted]
      · simp [create_next_layer, hfp, hlayer]
      · intro hdel
        by_cases hne : s.slot.owner_id.ordinal = 65535 <;>
          simp [create_next_layer, hfp, hlayer, hdel, hne,
            MasstreeBorderPage.copy_initial_record, initialize_border_page]
    · intro hlayer
      refine ⟨?_, ?_, ?_, ?_⟩ <;>
        simp [create_next_layer, hfp, hlayer,
          XctId.keylock_unconditional, XctId.release_keylock]

/-- Concrete input for the C10 witness concurrent branch: the slot is
already a next-layer pointer. -/
def c10In : CreateNextLayerIn :=
  { storage_id := 1
    numa_node := 0
    free_pages := [21]
    parent_layer := 0
    slot := { slice := 3, remaining_key_length := 255
              owner_id := { epoch := 2, ordinal := 9 }
              points_to_layer := true
              next_layer := { snapshot_pointer_ := 0,
                              volatile_pointer_ := ⟨0, 0, 0, 5⟩ } } }

/-- Witness for C10: the install branch at c5In (with a deleted original
record) and the concurrent branch at c10In. -/
theorem C10_next_layer_pointer_not_deleted_witness :
    ((({ c5In with slot := { c5In.slot with
          owner_id := { c5In.slot.owner_id with deleted := true } } }
        : CreateNextLayerIn).free_pages ≠ [])
     ∧ (create_next_layer { c5In with slot := { c5In.slot with
          owner_id := { c5In.slot.owner_id with deleted := true } } }).code =
            ErrorCode.ok
     ∧ (create_next_layer { c5In with slot := { c5In.slot with
          owner_id := { c5In.slot.owner_id with deleted := true } } }).slot.owner_id.deleted = false
     ∧ ((create_next_layer { c5In with slot := { c5In.slot with
          owner_id := { c5In.slot.owner_id with deleted := true } } }).new_root.map
          (fun p => (p.slots.getD 0 default).owner_id.deleted)) = some true)
    ∧ (c10In.free_pages ≠ []
       ∧ (create_next_layer c10In).free_pages = c10In.free_pages
       ∧ (create_next_layer c10In).new_root = none
       ∧ (create_next_layer c10In).slot =
           { c10In.slot with owner_id := { c10In.slot.owner_id with locked := false } }) := by
  constructor
  · have hmain := (C10_next_layer_pointer_not_deleted
      { c5In with slot := { c5In.slot with
          owner_id := { c5In.slot.owner_id with deleted := true } } }
      (by decide)).1 (by decide)
    exact ⟨by decide, hmain.1, hmain.2.1, hmain.2.2.2 (by decide)⟩
  · have hmain := (C10_next_layer_pointer_not_deleted c10In (by decide)).2 (by decide)
    exact ⟨by decide, hmain.2.1, hmain.2.2.1, hmain.2.2.2⟩

/-! ### Array increment_record (claim C9)

From ArrayStoragePimpl::increment_record, array_storage_pimpl.cpp lines
394-411: locate the record, read its current value through the
transactional read protocol, add it into the caller's value, and stage an
ArrayOverwrite log carrying that sum. -/

/-- Modelled from the spec: Xct::read_record_primitive (xct.hpp absent from
the source tree) reads a record's current value through the optimistic read
protocol of spec section 4.3; record_at i is the value the record bytes
hold when iteration i reads them. -/
def read_record_primitive {T : Type} (record_at : Nat → T)
    (obs : Nat → XctId × XctId) (fuel : Nat) (t0 : T) :
    Option (ErrorCode × T × Nat) :=
  optimistic_read_protocol (fun i _ _ => (ErrorCode.ok, record_at i)) obs fuel 0 t0

/-- ArrayStoragePimpl::increment_record (lines 394-411): read old_value,
add it into the caller's value, and stage the overwrite log populated with
the summed value.  On a read error the value is returned unchanged and no
log is staged. -/
def increment_record {T : Type} [Add T] (record_at : Nat → T)
    (obs : Nat → XctId × XctId) (fuel : Nat) (t0 : T) (value : T) :
    Option (IncrementOut T) :=
  match read_record_primitive record_at obs fuel t0 with
  | none => none
  | some (code, old_value, i) =>
    if code ≠ ErrorCode.ok then
      some { code := code, value := value, staged := none, iter := i }
    else
      some { code := ErrorCode.ok, value := value + old_value,
             staged := some (value + old_value), iter := i }

/-- C9: on success array increment_record stages an overwrite log whose
payload is the record's current value (as read through the protocol) plus
the caller's delta, and stores that sum through the caller's value pointer;
consequently an increment with delta 0 stages exactly the record's current
value. -/
theorem C9_increment_stages_read_plus_delta :
    (∀ (T : Type) (inst : Add T) (record_at : Nat → T)
      (obs : Nat → XctId × XctId) (fuel : Nat) (t0 value : T) (r : IncrementOut T),
      increment_record record_at obs fuel t0 value = some r →
      (r.code = ErrorCode.ok →
        r.value = value + record_at r.iter
        ∧ r.staged = some (value + record_at r.iter))
      ∧ (r.code ≠ ErrorCode.ok → r.value = value ∧ r.staged = none))
    ∧ (∀ (record_at : Nat → Int) (obs : Nat → XctId × XctId) (fuel : Nat)
      (t0 : Int) (r : IncrementOut Int),
      increment_record record_at obs fuel t0 0 = some r →
      r.code = ErrorCode.ok → r.staged = some (record_at r.iter)) := by
  have hgen : ∀ (T : Type) (inst : Add T) (record_at : Nat → T)
      (obs : Nat → XctId × XctId) (fuel : Nat) (t0 value : T) (r : IncrementOut T),
      increment_record record_at obs fuel t0 value = some r →
      (r.code = ErrorCode.ok →
        r.value = value + record_at r.iter
        ∧ r.staged = some (value + record_at r.iter))
      ∧ (r.code ≠ ErrorCode.ok → r.value = value ∧ r.staged = none) := by
    intro T inst record_at obs fuel t0 value r h
    unfold increment_record read_record_primitive at h
    cases hp : optimistic_read_protocol (fun i _ _ => (ErrorCode.ok, record_at i))
        obs fuel 0 t0 with
    | none => rw [hp] at h; cases h
    | some res =>
      obtain ⟨code, old_value, i⟩ := res
      rw [hp] at h
      by_cases hc : code = ErrorCode.ok
      · subst hc
        simp only [ne_eq, not_true, if_false, if_neg] at h
        have hold : old_value = record_at i :=
          optimistic_read_ok_state _ obs (fun j => record_at j)
            (fun _ _ _ _ => rfl) fuel 0 t0 _ old_value i hp rfl
        cases h
        subst hold
        constructor
        · intro _; exact ⟨rfl, rfl⟩
        · intro hne; exact absurd rfl hne
      · simp only [ne_eq, hc, not_false_iff, if_true] at h
        cases h
        constructor
        · intro hok; exact absurd hok hc
        · intro _; exact ⟨rfl, rfl⟩
  refine ⟨hgen, ?_⟩
  intro record_at obs fuel t0 r h hok
  have := (hgen Int inferInstance record_at obs fuel t0 0 r h).1 hok
  rw [this.2]
  rw [zero_add]

/-- Witness for C9: delta 0 over a record holding 41. -/
theorem C9_increment_stages_read_plus_delta_witness :
    increment_record (fun _ => (41 : Int)) wObs 2 0 0 =
      some { code := ErrorCode.ok, value := 41, staged := some 41, iter := 0 }
    ∧ (some (41 : Int) : Option Int) =
        some ((fun _ => (41 : Int))
          ({ code := ErrorCode.ok, value := 41, staged := some 41, iter := 0 } :
            IncrementOut Int).iter) := by
  constructor
  · decide
  · exact C9_increment_stages_read_plus_delta.2 (fun _ => (41 : Int)) wObs 2 0
      { code := ErrorCode.ok, value := 41, staged := some 41, iter := 0 }
      (by decide) rfl

/-! ### Masstree get_record NOT_FOUND characterization (claim C8)

locate_record (masstree_storage_pimpl.cpp lines 430-472) composed with
retrieve_general (lines 840-871).  MasstreeStorage::get_record itself and
the border-page find_key scan live in files absent from the source tree;
the composition and the scan are modelled from the spec over a quiescent
(concurrency-free) layered tree, which is what the claim's two NOT_FOUND
sources are about. -/

/-- A record in the quiescent layered-tree model. -/
structure QRec where
  remaining_key_length : Nat := 0
  suffix : List Nat := []
  owner_id : XctId := {}
  payload : List Nat := []
deriving DecidableEq, Repr

instance : Inhabited QRec := ⟨{}⟩

/-- A quiescent masstree layer root: a border page whose slots carry a
slice, a record, and optionally a pointer to the next layer's root (spec
section 4.5, layers). -/
inductive QTree where
  | node : List (Nat × QRec × Option QTree) → QTree

/-- Modelled from the spec: slice_layer extracts the 8-byte slice of the
key at the given layer, zero-padded on the right for short keys. -/
def slice_layer (key : List Nat) (layer : Nat) : Nat :=
  let bytes := (key.drop (layer * 8)).take 8
  (bytes ++ List.replicate (8 - bytes.length) 0).foldl (fun a b => a * 256 + b % 256) 0

/-- Result of the border find_key scan. -/
inductive QFindKey where
  | sentinel
  | to_layer (t : QTree)
  | local_rec (rec : QRec)

/-- Modelled from the spec: MasstreeBorderPage::find_key (section 4.5,
"Find-key at border"): linear scan; a next-layer slot matches when its
slice matches and the query has more bytes than the slice; a record slot
matches when slice, remaining length and suffix all match; otherwise the
not-found sentinel. -/
def q_find_key (slots : List (Nat × QRec × Option QTree)) (slice : Nat)
    (remaining : Nat) (suffix : List Nat) : QFindKey :=
  match slots with
  | [] => QFindKey.sentinel
  | (sl, rec, nl) :: rest =>
    if sl = slice then
      match nl with
      | some t =>
        if 8 < remaining then QFindKey.to_layer t
        else q_find_key rest slice remaining suffix
      | none =>
        if rec.remaining_key_length = remaining ∧ rec.suffix = suffix then
          QFindKey.local_rec rec
        else q_find_key rest slice remaining suffix
    else q_find_key rest slice remaining suffix

/-- Outcome of locate_record over the quiescent tree. -/
inductive QLocateOut where
  | not_found_sentinel
  | found (rec : QRec)
  | out_of_fuel
deriving DecidableEq, Repr

/-- MasstreeStoragePimpl::locate_record (lines 430-472) over the quiescent
tree: per layer, compute slice, remaining length and suffix, run find_key;
the sentinel means not-found; a layer pointer is followed into the next
layer; a local record is returned.  Fuel bounds the layer loop. -/
def locate_record_q : Nat → QTree → List Nat → Nat → QLocateOut
  | 0, _, _, _ => QLocateOut.out_of_fuel
  | fuel + 1, QTree.node slots, key, layer =>
    let slice := slice_layer key layer
    let remaining := key.length - layer * 8
    let suffix := key.drop ((layer + 1) * 8)
    match q_find_key slots slice remaining suffix with
    | QFindKey.sentinel => QLocateOut.not_found_sentinel
    | QFindKey.to_layer t => locate_record_q fuel t key (layer + 1)
    | QFindKey.local_rec rec => QLocateOut.found rec

/-- Modelled from the spec: MasstreeStorage::get_record
(masstree_storage.cpp absent from the source tree) composes locate_record
with retrieve_general; over a quiescent tree the retrieval body reduces to
the deleted check and the capacity check of lines 854-868. -/
def get_record_q (fuel : Nat) (t : QTree) (key : List Nat)
    (payload_capacity : Nat) : ErrorCode :=
  match locate_record_q fuel t key 0 with
  | QLocateOut.out_of_fuel => ErrorCode.strMasstreeRetry
  | QLocateOut.not_found_sentinel => ErrorCode.strKeyNotFound
  | QLocateOut.found rec =>
    if rec.owner_id.deleted then ErrorCode.strKeyNotFound
    else if payload_capacity < rec.payload.length then
      ErrorCode.strTooSmallPayloadBuffer
    else ErrorCode.ok

/-- C8: get_record returns NOT_FOUND in exactly two situations — the
border find_key scan ended in the not-found sentinel, or a matching slot
exists whose observed owner-id is deleted; and concretely a lookup of an
absent 100-byte key in a fresh tree (an empty root border page) returns
NOT_FOUND. -/
theorem C8_not_found_two_sources :
    (∀ (fuel : Nat) (t : QTree) (key : List Nat) (cap : Nat),
      get_record_q fuel t key cap = ErrorCode.strKeyNotFound ↔
        (locate_record_q fuel t key 0 = QLocateOut.not_found_sentinel
         ∨ ∃ rec, locate_record_q fuel t key 0 = QLocateOut.found rec
             ∧ rec.owner_id.deleted = true))
    ∧ get_record_q 20 (QTree.node []) (List.replicate 100 0) 16 =
        ErrorCode.strKeyNotFound := by
  constructor
  · intro fuel t key cap
    unfold get_record_q
    cases hloc : locate_record_q fuel t key 0 with
    | not_found_sentinel => simp
    | out_of_fuel => simp
    | found rec =>
      by_cases hdel : rec.owner_id.deleted
      · simp [hdel]
      · by_cases hcap : cap < rec.payload.length
        · simp only [hdel, Bool.false_eq_true, if_false, hcap, if_true]
          constructor
          · intro hc; cases hc
          · rintro (hc | ⟨rec2, hrec2, hdel2⟩)
            · cases hc
            · cases hrec2; simp [hdel2] at hdel
        · simp only [hdel, Bool.false_eq_true, if_false, hcap, if_false]
          constructor
          · intro hc; cases hc
          · rintro (hc | ⟨rec2, hrec2, hdel2⟩)
            · cases hc
            · cases hrec2; simp [hdel2] at hdel
  · rfl

end Foedus
